import Mathlib

/-!
Verification development for the `configurable-app` repository.

The repository demonstrates loading a runtime configuration document
(`assets/settings.json`) before an Angular application bootstraps.  The
entry point `src/main.ts` fetches the document, parses it, and only then
calls `platformBrowserDynamic([...]).bootstrapModule(AppModule)`, seeding
the dependency-injection graph with the parsed `Settings` value.

This file gives a shallow embedding of that orchestration logic and of the
generated `BooksService` REST client, and proves (or refutes) the
specification claims about them.  Executions are modelled as lists of
observable events; the outcome of each external suspension point (the
`fetch` call, the body parse, the module bootstrap, the in-module
initializer request) is an explicit input of the model.
-/

/-- `src/app/models/settings.ts`: the settings document shape.
`interface Settings { baseUrl: string }`. -/
structure Settings where
  baseUrl : String
deriving Repr, DecidableEq

/-- The outcome of `response.json()` on the body of a settings response.
The browser promise rejects exactly when the body is not valid JSON; a body
that parses is delivered unvalidated (TypeScript casts it to `Settings`).
We model the documents relevant to the claims: ones that parse to the
settings shape, and ones that fail to parse. -/
inductive ResponseBody where
  /-- `response.json()` resolves with this parsed value. -/
  | parses (value : Settings)
  /-- `response.json()` rejects: the body is not valid JSON.  The rejection
  carries the parse error message. -/
  | malformed (message : String)
deriving Repr, DecidableEq

/-- The outcome of the `fetch` call in `src/main.ts`.  Per the Fetch API,
the returned promise rejects only on a network error; it resolves with a
`Response` for every completed HTTP exchange, whatever the status code. -/
inductive FetchOutcome where
  /-- The fetch promise rejects; `message` is the error message `e.message`. -/
  | networkError (message : String)
  /-- The fetch promise resolves with a response of this HTTP status whose
  body behaves as `body`. -/
  | response (status : Nat) (body : ResponseBody)
deriving Repr, DecidableEq

/-- The outcome of `platformBrowserDynamic(...).bootstrapModule(AppModule)`
viewed abstractly from `src/main.ts`: the returned promise either resolves
(the application is running) or rejects with an error. -/
inductive BootstrapOutcome where
  | success
  | failure (message : String)
deriving Repr, DecidableEq

/-- Observable events of a process execution. -/
inductive Event where
  /-- An outbound HTTP request to `url` (the `fetch` in `main.ts`, the
  `HttpClient` request of the settings initializer, or a request issued by
  the generated REST client). -/
  | request (url : String)
  /-- The `fetch` promise resolved with a response of this status. -/
  | fetchResolved (status : Nat)
  /-- The `fetch` promise rejected (network error). -/
  | fetchRejected (message : String)
  /-- `response.json()` resolved with this value. -/
  | jsonResolved (value : Settings)
  /-- `response.json()` rejected (malformed body). -/
  | jsonRejected (message : String)
  /-- `platformBrowserDynamic([{provide: SETTINGS, useValue: seeded}])
      .bootstrapModule(AppModule)` was invoked. -/
  | bootstrapModule (seeded : Settings)
  /-- `console.error(message)`: the top-level error reporter received an
  error. -/
  | consoleError (message : String)
  /-- A component (the `AppComponent`) read `settingsService.settings` and
  observed this value. -/
  | settingsObserved (value : Settings)
  /-- The bootstrap promise resolved: the application reached its running
  state. -/
  | appRunning
deriving Repr, DecidableEq

/-- The URL of the configuration fetch in `src/main.ts`:
`assets/settings.json?cache-buster=${cacheBuster}` where
`cacheBuster = new Date().getTime()`.  The current time enters the model as
the `cacheBuster` argument. -/
def settingsJsonUrl (cacheBuster : Nat) : String :=
  "assets/settings.json?cache-buster=" ++ toString cacheBuster

/-- The message passed to `console.error` by the final `.catch` in
`src/main.ts`: `` `error loading the app's configuration: ${e.message}` ``. -/
def configErrorMessage (message : String) : String :=
  "error loading the app's configuration: " ++ message

/-- The top-level promise chain of `src/main.ts`, with the module bootstrap
abstract (its outcome is the input `boot`):

```
fetch(`assets/settings.json?cache-buster=${cacheBuster}`)
    .then((response) => response.json())
    .then((settings: Settings) => {
        platformBrowserDynamic([{ provide: SETTINGS, useValue: settings }])
            .bootstrapModule(AppModule)
            .catch((err) => console.error(err));
    })
    .catch((e) => {
        console.error(`error loading the app's configuration: ${e.message}`);
    });
```

A network error or a `json()` rejection flows to the outer `.catch`; a
bootstrap rejection is handled by the inner `.catch` (the inner promise is
not returned from the `then` callback, so it never reaches the outer one).
The `enableProdMode()` branch has no observable effect modelled here. -/
def mainRun (cacheBuster : Nat) (outcome : FetchOutcome)
    (boot : BootstrapOutcome) : List Event :=
  Event.request (settingsJsonUrl cacheBuster) ::
    match outcome with
    | .networkError m =>
        [Event.fetchRejected m, Event.consoleError (configErrorMessage m)]
    | .response status body =>
        Event.fetchResolved status ::
          match body with
          | .malformed m =>
              [Event.jsonRejected m, Event.consoleError (configErrorMessage m)]
          | .parses s =>
              Event.jsonResolved s :: Event.bootstrapModule s ::
                match boot with
                | .success => [Event.appRunning]
                | .failure m => [Event.consoleError m]

/-- Whether an event is an outbound HTTP request. -/
def isRequest : Event → Bool
  | .request _ => true
  | _ => false

/-- Whether an event is a request for the configuration document
`assets/settings.json` (with any cache-buster query). -/
def isSettingsRequest : Event → Bool
  | .request url =>
      List.isPrefixOf "assets/settings.json?cache-buster=".data url.data
  | _ => false

/-- Whether an event is an invocation of the module bootstrap. -/
def isBootstrap : Event → Bool
  | .bootstrapModule _ => true
  | _ => false

/-- The messages delivered to the top-level error reporter
(`console.error`) along a trace, in order. -/
def consoleErrors (trace : List Event) : List String :=
  trace.filterMap fun e =>
    match e with
    | .consoleError m => some m
    | _ => none

/-- The URLs of the outbound requests along a trace, in order. -/
def requests (trace : List Event) : List String :=
  trace.filterMap fun e =>
    match e with
    | .request url => some url
    | _ => none

/-- The failure cases of the fetch-then-parse chain in `src/main.ts`: the
underlying error message when the chain rejects (a network error, or a
body that fails to parse as JSON), `none` when the chain reaches the
bootstrap step. -/
def chainFailure : FetchOutcome → Option String
  | .networkError m => some m
  | .response _ (.malformed m) => some m
  | .response _ (.parses _) => none

example :
    mainRun 7 (.networkError "Failed to fetch") .success =
      [Event.request "assets/settings.json?cache-buster=7",
       Event.fetchRejected "Failed to fetch",
       Event.consoleError
         "error loading the app's configuration: Failed to fetch"] := by
  decide

example :
    (mainRun 7 (.response 500 (.parses ⟨"https://api.example.test"⟩))
        .success).countP isBootstrap = 1 := by
  decide

/-! ## The Settings Holder and the in-module initializer -/

/-- `src/app/services/settings.service.ts`: the Settings Holder.
`constructor(@Inject(SETTINGS) public settings: Settings) {}` — the service
is constructed already populated with the value bound to the `SETTINGS`
injection token.  The field is a plain mutable `public` property. -/
structure SettingsService where
  settings : Settings
deriving Repr, DecidableEq

/-- The state update performed by
`SettingsInitializerService.initializeSettings`
(`src/app/services/settings-initializer.service.ts`) when its
`HttpClient` request resolves: `this.settings.settings = response;`. -/
def initializeSettingsAssign (service : SettingsService)
    (response : Settings) : SettingsService :=
  { service with settings := response }

/-- The outcome of the settings initializer's
`this.http.get<Settings>(...)` request (`HttpClient` rejects the resulting
promise on network errors and on non-2xx statuses). -/
inductive InitOutcome where
  | resolved (value : Settings)
  | rejected (message : String)
deriving Repr, DecidableEq

/-! ## The generated `BooksService` client -/

/-- The relevant state of the generated client's `Configuration` object
(`projects/book-monkey-api/src/lib/configuration.ts`, not under `src/`).
Modelled from the generated client as used by `books.service.ts`: an
optional `basePath` string; a `Configuration` constructed with no
parameters (`new Configuration()`) has `basePath` undefined, modelled as
`none`.  The other fields (encoder, credentials, header selection) do not
affect any claim and are omitted. -/
structure Configuration where
  basePath : Option String := none
deriving Repr, DecidableEq

/-- `BooksService.basePath` (`books.service.ts` line 39):
`protected basePath = 'http://localhost';` — the default base path. -/
def defaultBasePath : String := "http://localhost"

/-- The value injected for the `BASE_PATH` token in the `BooksService`
constructor: `@Optional()@Inject(BASE_PATH) basePath: string|string[]`.
With `@Optional()`, the argument may also be absent (null). -/
inductive BasePathArg where
  | absent
  | str (s : String)
  | arr (l : List String)
deriving Repr, DecidableEq

/-- The `BooksService` constructor (`books.service.ts` lines 44-59),
returning the resulting `configuration` state:

```
if (configuration) { this.configuration = configuration; }
if (typeof this.configuration.basePath !== 'string') {
    if (Array.isArray(basePath) && basePath.length > 0) {
        basePath = basePath[0];
    }
    if (typeof basePath !== 'string') {
        basePath = this.basePath;            // 'http://localhost'
    }
    this.configuration.basePath = basePath;
}
```

(The `encoder` assignment has no bearing on the claims and is omitted.) -/
def newBooksService (basePath : BasePathArg)
    (configuration : Option Configuration) : Configuration :=
  let cfg := configuration.getD {}
  if cfg.basePath.isSome then cfg
  else
    let basePath₁ :=
      match basePath with
      | .arr (x :: _) => BasePathArg.str x
      | other => other
    let basePath₂ :=
      match basePath₁ with
      | .str s => s
      | _ => defaultBasePath
    { cfg with basePath := some basePath₂ }

/-- `Configuration.encodeParam` for a simple-style string path parameter
(`configuration.ts`, not under `src/`).  Modelled from the generated
client: the serializer renders a plain string path parameter as itself (no
claim depends on percent-encoding details). -/
def encodeParam (value : String) : String := value

/-- The `${this.configuration.basePath}` fragment of the request URLs: a
JavaScript template literal renders an undefined `basePath` as the text
`undefined` (the constructor in fact always leaves it set). -/
def basePathText (cfg : Configuration) : String :=
  cfg.basePath.getD "undefined"

inductive HttpMethod where
  | get
  | post
  | put
  | delete
deriving Repr, DecidableEq

/-- The request an operation hands to `httpClient` (method and URL; the
headers, context and progress options have no bearing on the claims). -/
structure HttpRequest where
  method : HttpMethod
  url : String
deriving Repr, DecidableEq

/-- The `Error` thrown synchronously by an operation before any request is
issued. -/
structure ThrownError where
  message : String
deriving Repr, DecidableEq

/-- `Book` (`projects/book-monkey-api/src/lib/model/book.ts`).  Numeric
fields use `Int` and the RFC3339 `published` date its string form; the
operations only carry a book as an opaque request body. -/
structure Book where
  isbn : String
  title : String
  authors : Option (List String) := none
  subtitle : Option String := none
  rating : Int
  published : Option String := none
  description : String
  price : Option Int := none
deriving Repr, DecidableEq

/-- `Rating` (`projects/book-monkey-api/src/lib/model/rating.ts`, not under
`src/`).  Modelled from the generated client: the new rating value for a
book; the operations only carry it as an opaque request body. -/
structure Rating where
  rating : Int
deriving Repr, DecidableEq

/-- `BooksService.booksGet` (no required parameter): issues
`GET ${basePath}/books`. -/
def booksGet (cfg : Configuration) : HttpRequest :=
  { method := .get, url := basePathText cfg ++ "/books" }

/-- `BooksService.booksDelete` (no required parameter): issues
`DELETE ${basePath}/books`. -/
def booksDelete (cfg : Configuration) : HttpRequest :=
  { method := .delete, url := basePathText cfg ++ "/books" }

/-- `BooksService.booksIsbnCheckGet`: throws when `isbn` is null or
undefined (modelled as `none`), otherwise issues
`GET ${basePath}/books/${encodeParam(isbn)}/check`. -/
def booksIsbnCheckGet (cfg : Configuration) (isbn : Option String) :
    Except ThrownError HttpRequest :=
  match isbn with
  | none => .error ⟨"Required parameter isbn was null or undefined when calling booksIsbnCheckGet."⟩
  | some i =>
      .ok { method := .get,
            url := basePathText cfg ++ "/books/" ++ encodeParam i ++ "/check" }

/-- `BooksService.booksIsbnDelete`: throws when `isbn` is null or
undefined, otherwise issues `DELETE ${basePath}/books/${encodeParam(isbn)}`. -/
def booksIsbnDelete (cfg : Configuration) (isbn : Option String) :
    Except ThrownError HttpRequest :=
  match isbn with
  | none => .error ⟨"Required parameter isbn was null or undefined when calling booksIsbnDelete."⟩
  | some i =>
      .ok { method := .delete,
            url := basePathText cfg ++ "/books/" ++ encodeParam i }

/-- `BooksService.booksIsbnGet`: throws when `isbn` is null or undefined,
otherwise issues `GET ${basePath}/books/${encodeParam(isbn)}`. -/
def booksIsbnGet (cfg : Configuration) (isbn : Option String) :
    Except ThrownError HttpRequest :=
  match isbn with
  | none => .error ⟨"Required parameter isbn was null or undefined when calling booksIsbnGet."⟩
  | some i =>
      .ok { method := .get,
            url := basePathText cfg ++ "/books/" ++ encodeParam i }

/-- `BooksService.booksIsbnPut`: throws when `isbn` or `book` is null or
undefined (each checked in turn), otherwise issues
`PUT ${basePath}/books/${encodeParam(isbn)}` with `book` as body. -/
def booksIsbnPut (cfg : Configuration) (isbn : Option String)
    (book : Option Book) : Except ThrownError HttpRequest :=
  match isbn with
  | none => .error ⟨"Required parameter isbn was null or undefined when calling booksIsbnPut."⟩
  | some i =>
      match book with
      | none => .error ⟨"Required parameter book was null or undefined when calling booksIsbnPut."⟩
      | some _ =>
          .ok { method := .put,
                url := basePathText cfg ++ "/books/" ++ encodeParam i }

/-- `BooksService.booksIsbnRatePost`: throws when `isbn` or `rating` is
null or undefined, otherwise issues
`POST ${basePath}/books/${encodeParam(isbn)}/rate` with `rating` as body. -/
def booksIsbnRatePost (cfg : Configuration) (isbn : Option String)
    (rating : Option Rating) : Except ThrownError HttpRequest :=
  match isbn with
  | none => .error ⟨"Required parameter isbn was null or undefined when calling booksIsbnRatePost."⟩
  | some i =>
      match rating with
      | none => .error ⟨"Required parameter rating was null or undefined when calling booksIsbnRatePost."⟩
      | some _ =>
          .ok { method := .post,
                url := basePathText cfg ++ "/books/" ++ encodeParam i ++ "/rate" }

/-- `BooksService.booksPost`: throws when `book` is null or undefined,
otherwise issues `POST ${basePath}/books` with `book` as body. -/
def booksPost (cfg : Configuration) (book : Option Book) :
    Except ThrownError HttpRequest :=
  match book with
  | none => .error ⟨"Required parameter book was null or undefined when calling booksPost."⟩
  | some _ =>
      .ok { method := .post, url := basePathText cfg ++ "/books" }

/-- `BooksService.booksSearchSearchTermGet`: throws when `searchTerm` is
null or undefined, otherwise issues
`GET ${basePath}/books/search/${encodeParam(searchTerm)}`. -/
def booksSearchSearchTermGet (cfg : Configuration)
    (searchTerm : Option String) : Except ThrownError HttpRequest :=
  match searchTerm with
  | none => .error ⟨"Required parameter searchTerm was null or undefined when calling booksSearchSearchTermGet."⟩
  | some t =>
      .ok { method := .get,
            url := basePathText cfg ++ "/books/search/" ++ encodeParam t }

/-! ## The `AppModule` wiring and the composed process -/

/-- The `BASE_PATH` provider of `src/app/app.module.ts`:
`{ provide: BASE_PATH, useValue: "https://api.angular.schule" }` — a
hard-coded string value (the adjacent comment reads `should rather take
this value from the settings`). -/
def basePathProviderValue : String := "https://api.angular.schule"

/-- The `Configuration` state of the `BooksService` instance constructed
inside the bootstrapped module: the constructor receives the module's
`BASE_PATH` provider value and no explicit `Configuration`. -/
def moduleBooksService : Configuration :=
  newBooksService (.str basePathProviderValue) none

/-- `SettingsInitializerService.initializeSettings`
(`src/app/services/settings-initializer.service.ts`): one `HttpClient` GET
for the settings document with the service's cache buster
(its own `new Date().getTime()`, taken at service construction), then, on
resolution, `this.settings.settings = response`.  Returns the emitted
events and either the updated `SettingsService` state or the rejection
(an `HttpClient` promise rejects on network errors and non-2xx statuses). -/
def initializeSettings (service : SettingsService) (cacheBuster : Nat)
    (init : InitOutcome) : List Event × Except String SettingsService :=
  ([Event.request (settingsJsonUrl cacheBuster)],
   match init with
   | .rejected m => .error m
   | .resolved response => .ok (initializeSettingsAssign service response))

/-- The module bootstrap (`bootstrapModule(AppModule)` with the providers
of `src/app/app.module.ts`), given the seeded `SETTINGS` value, the
initializer's cache buster and the outcome of the initializer's request.
Returns the emitted events and either the final `SettingsService` state
(bootstrap resolved) or the error that rejected the bootstrap promise.

Steps, in order:
* `SettingsService` is constructed from the injected `SETTINGS` value;
* the `APP_INITIALIZER` provider runs
  `SettingsInitializerService.initializeSettings()` — when its promise
  rejects, the bootstrap rejects;
* the `AppComponent` is constructed: it reads
  `settingsService.settings` and calls `booksService.booksGet()`. -/
def bootstrapAppModule (seeded : Settings) (initCacheBuster : Nat)
    (init : InitOutcome) : List Event × Except String SettingsService :=
  let service : SettingsService := { settings := seeded }
  match initializeSettings service initCacheBuster init with
  | (initEvents, .error m) => (initEvents, .error m)
  | (initEvents, .ok service) =>
      (initEvents ++
        [Event.settingsObserved service.settings,
         Event.request (booksGet moduleBooksService).url],
       .ok service)

/-- The composed process: the `src/main.ts` chain with
`bootstrapModule(AppModule)` given by `bootstrapAppModule` instead of an
abstract outcome.  The bootstrap promise resolves (the application runs)
exactly when the module bootstrap returns a service state; a bootstrap
rejection is reported by the inner `.catch((err) => console.error(err))`. -/
def processRun (cacheBuster : Nat) (outcome : FetchOutcome)
    (initCacheBuster : Nat) (init : InitOutcome) : List Event :=
  Event.request (settingsJsonUrl cacheBuster) ::
    match outcome with
    | .networkError m =>
        [Event.fetchRejected m, Event.consoleError (configErrorMessage m)]
    | .response status body =>
        Event.fetchResolved status ::
          match body with
          | .malformed m =>
              [Event.jsonRejected m, Event.consoleError (configErrorMessage m)]
          | .parses s =>
              Event.jsonResolved s :: Event.bootstrapModule s ::
                match bootstrapAppModule s initCacheBuster init with
                | (events, .ok _) => events ++ [Event.appRunning]
                | (events, .error m) => events ++ [Event.consoleError m]

example :
    processRun 7 (.response 200 (.parses ⟨"https://api.example.test"⟩)) 9
        (.resolved ⟨"https://api.example.test"⟩) =
      [Event.request "assets/settings.json?cache-buster=7",
       Event.fetchResolved 200,
       Event.jsonResolved ⟨"https://api.example.test"⟩,
       Event.bootstrapModule ⟨"https://api.example.test"⟩,
       Event.request "assets/settings.json?cache-buster=9",
       Event.settingsObserved ⟨"https://api.example.test"⟩,
       Event.request "https://api.angular.schule/books",
       Event.appRunning] := by
  decide

/-! ## Claims -/

/-- C1 counterexample: a non-2xx response whose body parses as JSON does
not take the failure path. `fetch` resolves with a `Response` on HTTP
error statuses and `src/main.ts` never checks `response.ok`, so on an HTTP
500 carrying a well-formed settings body the Application Bootstrap is
invoked, no error is reported, and the application reaches a running
state. -/
theorem C1_non2xxStillBootstraps :
    (¬ (200 ≤ 500 ∧ 500 ≤ 299)) ∧
    (mainRun 3 (.response 500 (.parses ⟨"https://api.example.test"⟩))
        .success).countP isBootstrap = 1 ∧
    consoleErrors (mainRun 3
        (.response 500 (.parses ⟨"https://api.example.test"⟩)) .success) = [] ∧
    Event.appRunning ∈
      mainRun 3 (.response 500 (.parses ⟨"https://api.example.test"⟩))
        .success := by
  decide

/-- C1 (amended): for every outcome on which the fetch-then-parse chain of
`src/main.ts` rejects — a network error or a malformed response body — the
loader reports exactly one Configuration-Load error carrying the
underlying cause, the Application Bootstrap is never invoked, and the
application does not reach a running state. -/
theorem C1_loadFailureShortCircuits (cacheBuster : Nat)
    (outcome : FetchOutcome) (boot : BootstrapOutcome) (m : String)
    (h : chainFailure outcome = some m) :
    (mainRun cacheBuster outcome boot).countP isBootstrap = 0 ∧
    consoleErrors (mainRun cacheBuster outcome boot) =
      [configErrorMessage m] ∧
    Event.appRunning ∉ mainRun cacheBuster outcome boot := by
  cases outcome with
  | networkError msg =>
      simp only [chainFailure, Option.some.injEq] at h
      subst h
      refine ⟨?_, ?_, ?_⟩ <;> simp [mainRun, consoleErrors, isBootstrap]
  | response status body =>
      cases body with
      | malformed msg =>
          simp only [chainFailure, Option.some.injEq] at h
          subst h
          refine ⟨?_, ?_, ?_⟩ <;> simp [mainRun, consoleErrors, isBootstrap]
      | parses s => simp [chainFailure] at h

/-- C1 witness: the amended theorem at a concrete rejected fetch. -/
theorem C1_loadFailureShortCircuits_witness :
    (mainRun 3 (.networkError "Failed to fetch") .success).countP
        isBootstrap = 0 ∧
    consoleErrors (mainRun 3 (.networkError "Failed to fetch") .success) =
      [configErrorMessage "Failed to fetch"] ∧
    Event.appRunning ∉ mainRun 3 (.networkError "Failed to fetch")
      .success :=
  C1_loadFailureShortCircuits 3 (.networkError "Failed to fetch") .success
    "Failed to fetch" rfl

/-- C2 (code evaluated at the failing input): the `BASE_PATH` provider of
`src/app/app.module.ts` is the hard-coded string
`"https://api.angular.schule"`.  After bootstrapping with the settings
document `{"baseUrl": "https://api.example.test"}`, the provider still
yields the hard-coded value and the `booksGet` request is addressed to
`https://api.angular.schule/books`, not to the seeded base URL. -/
theorem C2_basePathIsHardcoded :
    basePathProviderValue = "https://api.angular.schule" ∧
    moduleBooksService.basePath = some "https://api.angular.schule" ∧
    (booksGet moduleBooksService).url = "https://api.angular.schule/books" ∧
    Event.request "https://api.angular.schule/books" ∈
      processRun 3 (.response 200 (.parses ⟨"https://api.example.test"⟩)) 4
        (.resolved ⟨"https://api.example.test"⟩) ∧
    basePathProviderValue ≠ "https://api.example.test" ∧
    (booksGet moduleBooksService).url ≠ "https://api.example.test/books" := by
  decide

/-- C3 (code evaluated at the failing input): the `APP_INITIALIZER`
registered in `src/app/app.module.ts` runs
`SettingsInitializerService.initializeSettings`, which reassigns the
Settings Holder's `settings` property; when its request resolves with a
different document than the one seeded at bootstrap, the Settings value
the holder exposes changes after construction, and a component observes
the overwritten value. -/
theorem C3_initializerOverwritesSettings :
    (bootstrapAppModule ⟨"https://api.example.test"⟩ 4
        (.resolved ⟨"https://other.example"⟩)).2 =
      .ok ⟨⟨"https://other.example"⟩⟩ ∧
    initializeSettingsAssign ⟨⟨"https://api.example.test"⟩⟩
        ⟨"https://other.example"⟩ ≠ ⟨⟨"https://api.example.test"⟩⟩ ∧
    Event.settingsObserved ⟨"https://other.example"⟩ ∈
      (bootstrapAppModule ⟨"https://api.example.test"⟩ 4
        (.resolved ⟨"https://other.example"⟩)).1 :=
  ⟨rfl, by decide, by decide⟩

/-- C4 (code evaluated at the failing input): a run that reaches the
bootstrap performs a second configuration fetch.  The `APP_INITIALIZER` of
`src/app/app.module.ts` requests `assets/settings.json` again after the
`bootstrapModule` step, i.e. after the process state has left
`LoadingConfiguration`: the composed run contains two settings requests,
the second of which follows the bootstrap invocation. -/
theorem C4_configurationFetchedTwice :
    (processRun 3 (.response 200 (.parses ⟨"https://api.example.test"⟩)) 4
        (.resolved ⟨"https://api.example.test"⟩)).countP
        isSettingsRequest = 2 ∧
    [Event.bootstrapModule ⟨"https://api.example.test"⟩,
     Event.request (settingsJsonUrl 4)].Sublist
      (processRun 3 (.response 200 (.parses ⟨"https://api.example.test"⟩)) 4
        (.resolved ⟨"https://api.example.test"⟩)) := by
  decide

/-- C5 (confirmed): the Application Bootstrap is invoked only when the
configuration fetch has settled: whenever the `src/main.ts` run contains a
`bootstrapModule` invocation, the fetch outcome was a resolved response
whose body parsed to the seeded value, and in the trace the fetch
settlement strictly precedes the bootstrap; in particular, on a fetch
rejection the bootstrap does not happen at all. -/
theorem C5_bootstrapOnlyAfterFetchSettled (cacheBuster : Nat)
    (outcome : FetchOutcome) (boot : BootstrapOutcome) (s : Settings)
    (h : Event.bootstrapModule s ∈ mainRun cacheBuster outcome boot) :
    ∃ status, outcome = .response status (.parses s) ∧
      [Event.fetchResolved status, Event.bootstrapModule s].Sublist
        (mainRun cacheBuster outcome boot) := by
  cases outcome with
  | networkError m => simp [mainRun] at h
  | response status body =>
      cases body with
      | malformed m => simp [mainRun] at h
      | parses s' =>
          have hs : s = s' := by
            cases boot <;> simpa [mainRun] using h
          subst hs
          exact ⟨status, rfl,
            List.Sublist.cons _ (List.Sublist.cons₂ _
              (List.Sublist.cons _ (List.Sublist.cons₂ _
                (List.nil_sublist _))))⟩

/-- C5 witness: the theorem at a concrete settled fetch. -/
theorem C5_bootstrapOnlyAfterFetchSettled_witness :
    ∃ status,
      FetchOutcome.response 200 (.parses ⟨"https://api.example.test"⟩) =
        .response status (.parses ⟨"https://api.example.test"⟩) ∧
      [Event.fetchResolved status,
       Event.bootstrapModule ⟨"https://api.example.test"⟩].Sublist
        (mainRun 3 (.response 200 (.parses ⟨"https://api.example.test"⟩))
          .success) :=
  C5_bootstrapOnlyAfterFetchSettled 3
    (.response 200 (.parses ⟨"https://api.example.test"⟩)) .success
    ⟨"https://api.example.test"⟩ (by decide)

/-- C6 (confirmed): a configuration fetch returning malformed JSON takes
exactly the failure path of a transport failure: in both runs the
Application Bootstrap is never invoked, and the reports delivered to the
top-level error reporter are identical — the single Configuration-Load
error the shared outer `.catch` handler builds from the underlying
message. -/
theorem C6_parseFailureSameAsTransportFailure (cacheBuster status : Nat)
    (m : String) (boot : BootstrapOutcome) :
    (mainRun cacheBuster (.networkError m) boot).countP isBootstrap = 0 ∧
    (mainRun cacheBuster (.response status (.malformed m)) boot).countP
      isBootstrap = 0 ∧
    consoleErrors (mainRun cacheBuster (.networkError m) boot) =
      [configErrorMessage m] ∧
    consoleErrors (mainRun cacheBuster (.response status (.malformed m))
        boot) =
      consoleErrors (mainRun cacheBuster (.networkError m) boot) := by
  refine ⟨?_, ?_, ?_, ?_⟩ <;> simp [mainRun, consoleErrors, isBootstrap]

/-- C7 (confirmed): when component-graph construction fails after a
successful configuration fetch, the failure is surfaced to the top-level
error reporter exactly once, the bootstrap is not retried (it is invoked
exactly once), and the application does not reach a running state. -/
theorem C7_bootstrapConstructionFailureSurfaced (cacheBuster status : Nat)
    (s : Settings) (err : String) :
    (mainRun cacheBuster (.response status (.parses s))
        (.failure err)).countP isBootstrap = 1 ∧
    consoleErrors (mainRun cacheBuster (.response status (.parses s))
        (.failure err)) = [err] ∧
    Event.appRunning ∉
      mainRun cacheBuster (.response status (.parses s)) (.failure err) := by
  refine ⟨?_, ?_, ?_⟩ <;> simp [mainRun, consoleErrors, isBootstrap]

/-- C8 (confirmed): each configuration load performs exactly one outbound
request — the `src/main.ts` chain issues exactly the one request to
`assets/settings.json` with its cache-busting query parameter (derived
from the current time, the `cacheBuster` argument), and so does each
`initializeSettings` call; and the parameter is not otherwise used —
erasing the request events, the run does not depend on it. -/
theorem C8_oneCacheBustedRequestPerLoad (cacheBuster : Nat)
    (outcome : FetchOutcome) (boot : BootstrapOutcome) (seeded : Settings)
    (initCacheBuster : Nat) (init : InitOutcome) :
    requests (mainRun cacheBuster outcome boot) =
      [settingsJsonUrl cacheBuster] ∧
    requests (initializeSettings ⟨seeded⟩ initCacheBuster init).1 =
      [settingsJsonUrl initCacheBuster] ∧
    settingsJsonUrl cacheBuster =
      "assets/settings.json" ++ ("?cache-buster=" ++ toString cacheBuster) ∧
    (∀ other : Nat,
      (mainRun cacheBuster outcome boot).filter (fun e => !isRequest e) =
        (mainRun other outcome boot).filter (fun e => !isRequest e)) := by
  refine ⟨?_, ?_, ?_, ?_⟩
  · rcases outcome with m | ⟨status, body | body⟩ <;> cases boot <;>
      simp [mainRun, requests]
  · simp [initializeSettings, requests]
  · simp [settingsJsonUrl, ← String.append_assoc]
  · intro other
    rcases outcome with m | ⟨status, body | body⟩ <;> cases boot <;>
      simp [mainRun, isRequest]

/-- C9 counterexample: when an injected `Configuration` already carries a
string `basePath`, a `BASE_PATH` supplied as a non-empty array is ignored:
the constructor keeps the configuration's base path and does not use the
array's first element. -/
theorem C9_arrayIgnoredWithConfiguration :
    newBooksService (.arr ["http://b"])
        (some { basePath := some "http://a" }) =
      { basePath := some "http://a" } ∧
    ("http://a" : String) ≠ "http://b" := by
  decide

/-- C9 (amended): when no injected `Configuration` carries a string
`basePath`, the `BooksService` constructor defaults the base path: with no
`BASE_PATH` value it becomes `http://localhost`, and with a `BASE_PATH`
supplied as a non-empty array the array's first element is used. -/
theorem C9_constructorBasePathDefaults
    (configuration : Option Configuration)
    (h : (configuration.getD {}).basePath = none) :
    (newBooksService .absent configuration).basePath =
      some "http://localhost" ∧
    ∀ (x : String) (l : List String),
      (newBooksService (.arr (x :: l)) configuration).basePath = some x := by
  constructor
  · simp [newBooksService, h, defaultBasePath]
  · intro x l
    simp [newBooksService, h]

/-- C9 witness: the amended theorem with no injected configuration. -/
theorem C9_constructorBasePathDefaults_witness :
    (newBooksService .absent none).basePath = some "http://localhost" ∧
    ∀ (x : String) (l : List String),
      (newBooksService (.arr (x :: l)) none).basePath = some x :=
  C9_constructorBasePathDefaults none rfl

/-- C10 (confirmed): every `BooksService` operation with a required
parameter throws a synchronous `Error` exactly when that parameter is null
or undefined (modelled as `none`) — the operation then returns the thrown
error and hands no request to `httpClient` — and with every required
parameter present it succeeds with a request. -/
theorem C10_requiredParameterChecks (cfg : Configuration) :
    (booksIsbnCheckGet cfg none =
        .error ⟨"Required parameter isbn was null or undefined when calling booksIsbnCheckGet."⟩ ∧
      ∀ i, (booksIsbnCheckGet cfg (some i)).isOk = true) ∧
    (booksIsbnDelete cfg none =
        .error ⟨"Required parameter isbn was null or undefined when calling booksIsbnDelete."⟩ ∧
      ∀ i, (booksIsbnDelete cfg (some i)).isOk = true) ∧
    (booksIsbnGet cfg none =
        .error ⟨"Required parameter isbn was null or undefined when calling booksIsbnGet."⟩ ∧
      ∀ i, (booksIsbnGet cfg (some i)).isOk = true) ∧
    ((∀ book, booksIsbnPut cfg none book =
        .error ⟨"Required parameter isbn was null or undefined when calling booksIsbnPut."⟩) ∧
      (∀ i, booksIsbnPut cfg (some i) none =
        .error ⟨"Required parameter book was null or undefined when calling booksIsbnPut."⟩) ∧
      ∀ i book, (booksIsbnPut cfg (some i) (some book)).isOk = true) ∧
    ((∀ rating, booksIsbnRatePost cfg none rating =
        .error ⟨"Required parameter isbn was null or undefined when calling booksIsbnRatePost."⟩) ∧
      (∀ i, booksIsbnRatePost cfg (some i) none =
        .error ⟨"Required parameter rating was null or undefined when calling booksIsbnRatePost."⟩) ∧
      ∀ i rating, (booksIsbnRatePost cfg (some i) (some rating)).isOk = true) ∧
    (booksPost cfg none =
        .error ⟨"Required parameter book was null or undefined when calling booksPost."⟩ ∧
      ∀ book, (booksPost cfg (some book)).isOk = true) ∧
    (booksSearchSearchTermGet cfg none =
        .error ⟨"Required parameter searchTerm was null or undefined when calling booksSearchSearchTermGet."⟩ ∧
      ∀ t, (booksSearchSearchTermGet cfg (some t)).isOk = true) :=
  ⟨⟨rfl, fun _ => rfl⟩, ⟨rfl, fun _ => rfl⟩, ⟨rfl, fun _ => rfl⟩,
   ⟨fun _ => rfl, fun _ => rfl, fun _ _ => rfl⟩,
   ⟨fun _ => rfl, fun _ => rfl, fun _ _ => rfl⟩,
   ⟨rfl, fun _ => rfl⟩, ⟨rfl, fun _ => rfl⟩⟩
